import Mathlib

/-!
Shallow embedding of `vigil-system/shared/bank_api_client.py`
(classes `AuthManager` and `BankAPIClient`).

Modelling conventions:
* `datetime.utcnow()` is modelled as a natural number of seconds passed in
  explicitly (`now : Time`); `timedelta(minutes=45)` is `45 * 60` seconds.
* Python instance state (`self.token`, `self.token_expiry`) is threaded
  explicitly as an `AuthState` value; each operation returns the new state.
* Network effects are inputs: the outcome that each HTTP request would have
  (a response, or the message of a raised exception) is a parameter of the
  embedded function, so the functions are pure and executable.
* A raised Python exception is modelled as an error value carrying the
  message string of the `RuntimeError` that the source code raises.
-/

namespace BankApi

/-- Seconds-since-epoch model of `datetime.utcnow()`. -/
abbrev Time := Nat

/-- The mutable state of `AuthManager`: `self.token` and `self.token_expiry`. -/
structure AuthState where
  token : Option String
  token_expiry : Option Time
deriving Repr, DecidableEq

/-- Python truthiness of `self.token`: it is neither `None` nor the empty
string. -/
def tokenTruthy : Option String → Bool
  | none => false
  | some t => !(t == "")

/-- Outcome of one HTTP request: either a completed response of type `α`, or
the message of the exception the request raised (network error, timeout, or a
body-decoding error). -/
inductive HttpOutcome (α : Type) where
  | ok : α → HttpOutcome α
  | exn : String → HttpOutcome α
deriving Repr, DecidableEq

/-- Response of the form-encoded `POST /login` attempt: status code and the
cookie jar (name, value pairs). -/
structure FormLoginResponse where
  status_code : Nat
  cookies : List (String × String)
deriving Repr, DecidableEq

/-- Response of the JSON `POST /login` attempt: status code and the value of
`data.get("token")` from the decoded JSON body (`none` when the key is absent
or its value is null). -/
structure JsonLoginResponse where
  status_code : Nat
  token_field : Option String
deriving Repr, DecidableEq

/-- Lookup of the cookie named `name`, as done by the loop
`for cookie_name in response.cookies: if cookie_name == "token": ...`. -/
def cookieLookup (cookies : List (String × String)) (name : String) : Option String :=
  (cookies.find? (fun c => c.1 == name)).map (fun c => c.2)

/-- Result of one call to `AuthManager._refresh_token`: the state after the
call, the message of the raised `RuntimeError` if the call raised, and how
many `POST /login` requests were issued. -/
structure RefreshResult where
  state : AuthState
  error : Option String
  login_requests : Nat
deriving Repr, DecidableEq

/-- Embedding of `AuthManager._refresh_token` (bank_api_client.py lines
45-94).  `formResp` is the outcome of the form-encoded login request and
`jsonResp` the outcome of the JSON login request (issued only when the form
attempt does not yield a token).  The source first tries form authentication
expecting a 302 redirect carrying a `token` cookie; otherwise it posts JSON
and, on a 200 response, stores `data.get("token")` before checking it.  Any
exception is wrapped as `RuntimeError("Authentication failed: ...")`.  Note
two behaviours visible in the source: on the JSON path the token field is
assigned to `self.token` before validation, and a non-200 JSON response
makes the function return silently with no exception raised. -/
def refresh_token (st : AuthState) (now : Time)
    (formResp : HttpOutcome FormLoginResponse)
    (jsonResp : HttpOutcome JsonLoginResponse) : RefreshResult :=
  match formResp with
  | .exn e => ⟨st, some ("Authentication failed: " ++ e), 1⟩
  | .ok r =>
      let tok := cookieLookup r.cookies "token"
      if (r.status_code == 302) && tokenTruthy tok then
        ⟨⟨tok, some (now + 45 * 60)⟩, none, 1⟩
      else
        match jsonResp with
        | .exn e => ⟨st, some ("Authentication failed: " ++ e), 2⟩
        | .ok r2 =>
            if r2.status_code == 200 then
              if tokenTruthy r2.token_field then
                ⟨⟨r2.token_field, some (now + 45 * 60)⟩, none, 2⟩
              else
                ⟨⟨r2.token_field, st.token_expiry⟩,
                  some "Authentication failed: No token received from login response", 2⟩
            else
              ⟨st, none, 2⟩

/-- Result of one call to `AuthManager.get_valid_token`: the state after the
call, either the raised error message or the returned value of `self.token`
(the source annotates the return type `str` but can return `None`), the
number of `_refresh_token` invocations, and the number of `POST /login`
requests issued. -/
structure TokenCallResult where
  state : AuthState
  result : Except String (Option String)
  refreshes : Nat
  login_requests : Nat
deriving Repr

/-- Python truthiness of the guard in `get_valid_token`:
`self.token and self.token_expiry and datetime.utcnow() < self.token_expiry`. -/
def cacheHit (st : AuthState) (now : Time) : Bool :=
  tokenTruthy st.token &&
    (match st.token_expiry with
     | some e => decide (now < e)
     | none => false)

/-- Embedding of `AuthManager.get_valid_token` (bank_api_client.py lines
37-43): return the cached token when it is truthy and unexpired, otherwise
call `_refresh_token` once and return `self.token`. -/
def get_valid_token (st : AuthState) (now : Time)
    (formResp : HttpOutcome FormLoginResponse)
    (jsonResp : HttpOutcome JsonLoginResponse) : TokenCallResult :=
  if cacheHit st now then
    ⟨st, .ok st.token, 0, 0⟩
  else
    let r := refresh_token st now formResp jsonResp
    match r.error with
    | some e => ⟨r.state, .error e, 1, r.login_requests⟩
    | none => ⟨r.state, .ok r.state.token, 1, r.login_requests⟩

/-- JSON values, modelling the Python objects returned by `response.json()`
and the dictionary literals the client builds. -/
inductive Json where
  | str : String → Json
  | num : Int → Json
  | bool : Bool → Json
  | null : Json
  | arr : List Json → Json
  | obj : List (String × Json) → Json

/-- Response received by `BankAPIClient._make_request`: status code, the
`content-type` header (the empty string when absent, as in
`response.headers.get("content-type", "")`), the body text, and the result of
`response.json()` (an error message when decoding would raise). -/
structure HttpResponse where
  status_code : Nat
  content_type : String
  text : String
  body_json : Except String Json

/-- Outcome of the underlying `self.http_client.request(...)` call: a
response, or the message of the raised exception (connection failure or
timeout). -/
inductive RequestOutcome where
  | resp : HttpResponse → RequestOutcome
  | netErr : String → RequestOutcome

/-- Python substring test `needle in haystack`. -/
def pyIn (needle haystack : String) : Bool :=
  decide (needle.data <:+: haystack.data)

/-- httpx `response.is_success`: status in the 2xx range.  httpx
`raise_for_status` raises `HTTPStatusError` for every non-2xx status. -/
def is2xx (status : Nat) : Bool :=
  (200 ≤ status && status < 300)

/-- Embedding of `BankAPIClient._make_request` (bank_api_client.py lines
108-131): raise a typed backend error for a non-2xx status, return the
decoded JSON body when the content type mentions `application/json`, and
otherwise wrap the raw text as the dictionary with single key `response`.
Any other exception (network error, JSON decode error) is wrapped as
`RuntimeError("Request failed: ...")`. -/
def make_request (outcome : RequestOutcome) : Except String Json :=
  match outcome with
  | .netErr e => .error ("Request failed: " ++ e)
  | .resp r =>
      if is2xx r.status_code then
        if pyIn "application/json" r.content_type then
          match r.body_json with
          | .ok j => .ok j
          | .error e => .error ("Request failed: " ++ e)
        else
          .ok (Json.obj [("response", Json.str r.text)])
      else
        .error ("Bank API error (" ++ toString r.status_code ++ "): " ++ r.text)

/-- Module-level default `BANK_BASE_URL = os.getenv("BANK_BASE_URL",
"http://userservice:8080")`. -/
def BANK_BASE_URL : String := "http://userservice:8080"

/-- Module-level default for `TRANSACTION_HISTORY_URL`. -/
def TRANSACTION_HISTORY_URL : String := "http://transactionhistory:8080"

/-- An HTTP request as issued by a client operation. -/
structure HttpRequest where
  method : String
  url : String
  headers : List (String × String)
deriving Repr, DecidableEq

/-- Header construction shared by the client operations (`if token:` at
bank_api_client.py line 256): attach `Authorization: Bearer <token>` exactly
when the supplied token is truthy, that is present and non-empty — for
`None` or the empty string the header dictionary stays empty. -/
def bearerHeaders (token : Option String) : List (String × String) :=
  match token with
  | some t => if !(t == "") then [("Authorization", "Bearer " ++ t)] else []
  | none => []

/-- The request built by `BankAPIClient.get_user_details` (lines 252-258):
a GET to `BANK_BASE_URL/users/<user_id>`, built unconditionally — the source
contains no validation of `user_id`. -/
def get_user_details_request (user_id : String) (token : Option String) : HttpRequest :=
  ⟨"GET", BANK_BASE_URL ++ "/users/" ++ user_id, bearerHeaders token⟩

/-- Embedding of `BankAPIClient.get_user_details`: it always issues exactly
the one request and returns whatever `_make_request` produces for the
outcome.  The list records the HTTP requests issued by the call. -/
def get_user_details (user_id : String) (token : Option String)
    (outcome : RequestOutcome) : List HttpRequest × Except String Json :=
  ([get_user_details_request user_id token], make_request outcome)

/-- Result of `await proc.communicate()` plus the exit status of the
`kubectl exec ... psql` subprocess used by the database fallback:
`returncode`, decoded `stdout` and decoded `stderr`. -/
structure ProcResult where
  returncode : Int
  stdout : String
  stderr : String
deriving Repr, DecidableEq

/-- The SQL text built by `BankAPIClient._get_transactions_via_db`
(bank_api_client.py lines 167-173).  The account id is inserted into the
statement by f-string interpolation, exactly as in the source. -/
def fallback_sql (account_id : String) : String :=
  "SELECT transaction_id, from_acct, to_acct, amount, to_char(timestamp, \x27YYYY-MM-DD\"T\"HH24:MI:SS\x27) AS ts FROM transactions WHERE from_acct=\x27" ++
    account_id ++ "\x27 OR to_acct=\x27" ++ account_id ++
    "\x27 ORDER BY timestamp DESC LIMIT 50;"

/-- Python `str.strip` whitespace set (space, tab, newline, carriage return,
vertical tab, form feed). -/
def pyIsSpace (c : Char) : Bool :=
  c == ' ' || c == '\t' || c == '\n' || c == '\r' || c == '\x0b' || c == '\x0c'

/-- Python `str.strip()`: drop leading and trailing whitespace. -/
def pyStrip (s : String) : String :=
  String.mk (((s.data.dropWhile pyIsSpace).reverse.dropWhile pyIsSpace).reverse)

/-- Helper for `pySplitlines`: accumulate the current line (reversed) while
scanning the remaining characters. -/
def splitlinesAux : List Char → List Char → List String
  | [], [] => []
  | [], acc => [String.mk acc.reverse]
  | '\r' :: '\n' :: rest, acc => String.mk acc.reverse :: splitlinesAux rest []
  | '\r' :: rest, acc => String.mk acc.reverse :: splitlinesAux rest []
  | '\n' :: rest, acc => String.mk acc.reverse :: splitlinesAux rest []
  | c :: rest, acc => splitlinesAux rest (c :: acc)

/-- Python `str.splitlines()` restricted to the common line terminators
`\n`, `\r\n` and `\r` (the source decodes psql output, where only these
occur). -/
def pySplitlines (s : String) : List String :=
  splitlinesAux s.data []

/-- Digit grammar of the Python `int` constructor applied to a decimal
string: one or more digits, with single underscores allowed between
digits. -/
def pyDigits : List Char → Bool
  | [] => false
  | [c] => c.isDigit
  | c :: '_' :: rest => c.isDigit && pyDigits rest
  | c :: rest => c.isDigit && pyDigits rest

/-- Numeric value of a digit string, ignoring underscores. -/
def digitsToNat (l : List Char) : Nat :=
  l.foldl (fun acc c => if c == '_' then acc else acc * 10 + (c.toNat - 48)) 0

/-- Model of Python `int(s)` for decimal strings: strip surrounding
whitespace, allow one leading sign, then require the `pyDigits` grammar;
`none` models the `ValueError` that `int` raises otherwise. -/
def pyIntOfString (s : String) : Option Int :=
  match (s.data.dropWhile pyIsSpace).reverse.dropWhile pyIsSpace |>.reverse with
  | '+' :: rest => if pyDigits rest then some (Int.ofNat (digitsToNat rest)) else none
  | '-' :: rest => if pyDigits rest then some (-(Int.ofNat (digitsToNat rest))) else none
  | rest => if pyDigits rest then some (Int.ofNat (digitsToNat rest)) else none

/-- One normalized transaction record as built by the fallback parser
(bank_api_client.py lines 205-212). -/
structure Transaction where
  transaction_id : String
  fromAccountNum : String
  toAccountNum : String
  amount : Int
  timestamp : String
  status : String
deriving Repr, DecidableEq

/-- The dictionary returned by `_get_transactions_via_db` (lines 217-221). -/
structure TransactionHistory where
  account_id : String
  transactions : List Transaction
  total_count : Nat
deriving Repr, DecidableEq

/-- Helper for `pySplitComma`: accumulate the current field (reversed). -/
def splitCommaAux : List Char → List Char → List String
  | [], acc => [String.mk acc.reverse]
  | ',' :: rest, acc => String.mk acc.reverse :: splitCommaAux rest []
  | c :: rest, acc => splitCommaAux rest (c :: acc)

/-- Python `line.split(",")`: split on every comma; the empty string yields
a single empty field. -/
def pySplitComma (s : String) : List String :=
  splitCommaAux s.data []

/-- Parsing of one stripped CSV line (bank_api_client.py lines 201-215): a
line with at least five comma-separated fields whose fourth field is a
Python integer yields one record with status COMPLETED; any other line is
skipped (the `ValueError` from `int` is caught and the loop continues). -/
def parseTransactionLine (line : String) : Option Transaction :=
  match pySplitComma line with
  | p0 :: p1 :: p2 :: p3 :: p4 :: _ =>
      match pyIntOfString p3 with
      | some amt => some ⟨p0, p1, p2, amt, p4, "COMPLETED"⟩
      | none => none
  | _ => none

/-- The line list built by
`lines = [l.strip() for l in stdout.splitlines() if l.strip()]`. -/
def db_lines (stdout : String) : List String :=
  ((pySplitlines stdout).map pyStrip).filter (fun l => !(l == ""))

/-- Embedding of `BankAPIClient._get_transactions_via_db` (bank_api_client.py
lines 161-221): on a non-zero subprocess exit status raise
`RuntimeError("Database query failed: <stderr>")`; otherwise parse the CSV
output line by line and return the account id, the parsed transactions and
their count. -/
def get_transactions_via_db (account_id : String) (proc : ProcResult) :
    Except String TransactionHistory :=
  if proc.returncode == 0 then
    let txs := (db_lines proc.stdout).filterMap parseTransactionLine
    .ok ⟨account_id, txs, txs.length⟩
  else
    .error ("Database query failed: " ++ proc.stderr)

/-- Payload returned by `get_transactions`: either the JSON body from the
transaction-history service, or the dictionary built by the database
fallback. -/
inductive TxResponse where
  | fromApi : Json → TxResponse
  | fromDb : TransactionHistory → TxResponse

/-- Observable outcome of one `get_transactions` call: the returned value or
raised error, how many times the database fallback ran, and the account id
it was invoked with (when it ran). -/
structure TxCall where
  result : Except String TxResponse
  fallback_calls : Nat
  fallback_account : Option String

/-- Embedding of `BankAPIClient.get_transactions` (bank_api_client.py lines
142-159): try the transaction-history service via `_make_request`; on any
exception fall back to `_get_transactions_via_db(account_id)` and return its
result; an error of the fallback itself propagates to the caller. -/
def get_transactions (account_id : String) (primary : RequestOutcome)
    (proc : ProcResult) : TxCall :=
  match make_request primary with
  | .ok j => ⟨.ok (.fromApi j), 0, none⟩
  | .error _ =>
      match get_transactions_via_db account_id proc with
      | .ok h => ⟨.ok (.fromDb h), 1, some account_id⟩
      | .error m => ⟨.error m, 1, some account_id⟩

/-- The four failure kinds named by the specification. -/
inductive ErrorKind where
  | authenticationFailed
  | backendHTTPError
  | requestFailed
  | fallbackQueryFailed
deriving Repr, DecidableEq

/-- Character-list prefix test, written as structural recursion so that it
reduces even when only the candidate prefix is concrete. -/
def startsWithChars : List Char → List Char → Bool
  | [], _ => true
  | _ :: _, [] => false
  | a :: as, b :: bs => (a == b) && startsWithChars as bs

/-- Python `s.startswith(p)`. -/
def pyStartsWith (s p : String) : Bool :=
  startsWithChars p.data s.data

/-- Classification of a raised error message by the fixed prefix each raise
site of the source uses.  The four prefixes begin with four distinct
characters, so at most one test can succeed. -/
def classifyError (msg : String) : Option ErrorKind :=
  if pyStartsWith msg "Authentication failed: " then some .authenticationFailed
  else if pyStartsWith msg "Bank API error (" then some .backendHTTPError
  else if pyStartsWith msg "Request failed: " then some .requestFailed
  else if pyStartsWith msg "Database query failed: " then some .fallbackQueryFailed
  else none

theorem data_append (a b : String) : (a ++ b).data = a.data ++ b.data := by
  cases a
  cases b
  rfl

/-- C1: if the primary transaction-history request fails with any exception,
`get_transactions` invokes the database fallback exactly once with the same
account id and returns the fallback result; when the fallback subprocess
exits non-zero, the raised error message is derived from the fallback
stderr (it does not depend on the primary error `e`). -/
theorem get_transactions_falls_back_once (account_id e : String)
    (primary : RequestOutcome) (proc : ProcResult)
    (hp : make_request primary = .error e) :
    (get_transactions account_id primary proc).fallback_calls = 1 ∧
    (get_transactions account_id primary proc).fallback_account = some account_id ∧
    (∀ h, get_transactions_via_db account_id proc = .ok h →
      (get_transactions account_id primary proc).result = .ok (.fromDb h)) ∧
    ((proc.returncode == 0) = false →
      (get_transactions account_id primary proc).result =
        .error ("Database query failed: " ++ proc.stderr)) := by
  simp only [get_transactions, hp]
  cases hdb : get_transactions_via_db account_id proc with
  | ok h =>
      refine ⟨rfl, rfl, ?_, ?_⟩
      · intro h2 hh
        cases hh
        rfl
      · intro hrc
        simp [get_transactions_via_db, hrc] at hdb
  | error m =>
      refine ⟨rfl, rfl, ?_, ?_⟩
      · intro h2 hh
        exact Except.noConfusion hh
      · intro hrc
        simp [get_transactions_via_db, hrc] at hdb
        rw [← hdb]

theorem get_transactions_falls_back_once_witness :
    (get_transactions "acct-9" (.netErr "timeout") ⟨0, "t1,a,b,100,ts\n", ""⟩).fallback_calls = 1 ∧
    (get_transactions "acct-9" (.netErr "timeout") ⟨0, "t1,a,b,100,ts\n", ""⟩).result =
      .ok (.fromDb ⟨"acct-9", [⟨"t1", "a", "b", 100, "ts", "COMPLETED"⟩], 1⟩) ∧
    (get_transactions "acct-9" (.netErr "timeout") ⟨1, "", "no pod"⟩).result =
      .error ("Database query failed: no pod") :=
  ⟨(get_transactions_falls_back_once "acct-9" "Request failed: timeout"
      (.netErr "timeout") ⟨0, "t1,a,b,100,ts\n", ""⟩ rfl).1,
   (get_transactions_falls_back_once "acct-9" "Request failed: timeout"
      (.netErr "timeout") ⟨0, "t1,a,b,100,ts\n", ""⟩ rfl).2.2.1 _ (by rfl),
   (get_transactions_falls_back_once "acct-9" "Request failed: timeout"
      (.netErr "timeout") ⟨1, "", "no pod"⟩ rfl).2.2.2 rfl⟩

/-- C2 (failing input): with no cached token, a form login response of 401
and a JSON login response of 500, `get_valid_token` performs exactly one
refresh (two login posts), raises nothing, and returns `None` — not a newly
obtained token, contradicting the claim (and the `-> str` annotation of the
source). -/
theorem get_valid_token_silent_failure :
    get_valid_token ⟨none, none⟩ 0 (.ok ⟨401, []⟩) (.ok ⟨500, none⟩) =
      ⟨⟨none, none⟩, .ok none, 1, 2⟩ := rfl

/-- C3 (failing inputs): first, with a cached token and a 200 JSON login
response missing the token field, `_refresh_token` raises the
authentication error but first overwrites the cached token with the absent
value, so the state is not left as it was; second, with a non-302 form
response and a non-200 JSON response, `_refresh_token` raises nothing at
all and returns silently. -/
theorem refresh_token_failure_paths :
    refresh_token ⟨some "old", some 9999⟩ 0 (.ok ⟨200, []⟩) (.ok ⟨200, none⟩) =
      ⟨⟨none, some 9999⟩,
        some "Authentication failed: No token received from login response", 2⟩ ∧
    refresh_token ⟨some "old", some 9999⟩ 0 (.ok ⟨401, []⟩) (.ok ⟨500, none⟩) =
      ⟨⟨some "old", some 9999⟩, none, 2⟩ :=
  ⟨rfl, rfl⟩

/-- C4 (counterexample): calling `get_user_details` with the empty user id
issues one HTTP request — to the trailing-slash URL — and returns whatever
the backend answers; there is no validation error and no fail-fast path. -/
theorem get_user_details_empty_id_sends_request :
    (get_user_details "" none (.resp ⟨200, "application/json", "", .ok (Json.obj [])⟩)).1 =
      [⟨"GET", "http://userservice:8080/users/", []⟩] ∧
    (get_user_details "" none (.resp ⟨200, "application/json", "", .ok (Json.obj [])⟩)).1 ≠ [] ∧
    (get_user_details "" none (.resp ⟨200, "application/json", "", .ok (Json.obj [])⟩)).2 =
      .ok (Json.obj []) :=
  ⟨rfl, by simp [get_user_details], rfl⟩

/-- C4 (amended): `get_user_details` performs no input validation at all:
for every user id — the empty string included — it issues exactly one GET
request to `BANK_BASE_URL/users/<user_id>`, attaches the bearer header
exactly when the supplied token is truthy (present and non-empty, the
`if token:` check of the source — `None` and the empty string attach no
header), and returns the `_make_request` translation of the outcome. -/
theorem get_user_details_never_validates (user_id : String) (token : Option String)
    (outcome : RequestOutcome) :
    (get_user_details user_id token outcome).1 = [get_user_details_request user_id token] ∧
    (get_user_details_request user_id token).url = BANK_BASE_URL ++ "/users/" ++ user_id ∧
    (get_user_details_request user_id token).headers = bearerHeaders token ∧
    (∀ t, token = some t → t ≠ "" →
      (get_user_details_request user_id token).headers = [("Authorization", "Bearer " ++ t)]) ∧
    (tokenTruthy token = false → (get_user_details_request user_id token).headers = []) ∧
    (get_user_details user_id token outcome).2 = make_request outcome := by
  refine ⟨rfl, rfl, rfl, ?_, ?_, rfl⟩
  · intro t ht hne
    subst ht
    simp [get_user_details_request, bearerHeaders, hne]
  · intro h
    cases token with
    | none => rfl
    | some t =>
        simp only [tokenTruthy, Bool.not_eq_false, beq_iff_eq] at h
        simp [get_user_details_request, bearerHeaders, h]

theorem get_user_details_never_validates_witness :
    (get_user_details "" (some "") (.netErr "boom")).1 =
      [get_user_details_request "" (some "")] ∧
    (get_user_details_request "" (some "")).headers = [] ∧
    (get_user_details_request "user-1" (some "tok")).headers =
      [("Authorization", "Bearer " ++ "tok")] :=
  ⟨(get_user_details_never_validates "" (some "") (.netErr "boom")).1,
   (get_user_details_never_validates "" (some "") (.netErr "boom")).2.2.2.2.1 rfl,
   (get_user_details_never_validates "user-1" (some "tok") (.netErr "boom")).2.2.2.1
     "tok" rfl (by decide)⟩

/-- C7: every successful token refresh at time `now` — via the 302 redirect
cookie or via the 200 JSON body — sets the cached expiry to exactly
`now + 45 * 60` seconds; consequently, in the concrete scenario, a refresh
at t=0 yields expiry 2700s, a `get_valid_token` call at t=44min reuses the
cached token with no refresh, and a call at t=46min refreshes again. -/
theorem refresh_sets_expiry_to_now_plus_45min :
    (∀ st now (r : FormLoginResponse) jsonResp,
      ((r.status_code == 302) && tokenTruthy (cookieLookup r.cookies "token")) = true →
      (refresh_token st now (.ok r) jsonResp).state.token_expiry = some (now + 45 * 60)) ∧
    (∀ st now (r : FormLoginResponse) (r2 : JsonLoginResponse),
      ((r.status_code == 302) && tokenTruthy (cookieLookup r.cookies "token")) = false →
      r2.status_code = 200 → tokenTruthy r2.token_field = true →
      (refresh_token st now (.ok r) (.ok r2)).state.token_expiry = some (now + 45 * 60)) ∧
    (get_valid_token ⟨none, none⟩ 0 (.ok ⟨302, [("token", "tok1")]⟩) (.exn "unused") =
      ⟨⟨some "tok1", some 2700⟩, .ok (some "tok1"), 1, 1⟩) ∧
    (get_valid_token ⟨some "tok1", some 2700⟩ (44 * 60) (.exn "unused") (.exn "unused") =
      ⟨⟨some "tok1", some 2700⟩, .ok (some "tok1"), 0, 0⟩) ∧
    (get_valid_token ⟨some "tok1", some 2700⟩ (46 * 60) (.ok ⟨302, [("token", "tok2")]⟩)
        (.exn "unused") =
      ⟨⟨some "tok2", some (46 * 60 + 45 * 60)⟩, .ok (some "tok2"), 1, 1⟩) := by
  refine ⟨?_, ?_, rfl, rfl, rfl⟩
  · intro st now r jsonResp hc
    simp [refresh_token, hc]
  · intro st now r r2 hc h200 htok
    simp [refresh_token, hc, h200, htok]

theorem refresh_sets_expiry_to_now_plus_45min_witness :
    (refresh_token ⟨none, none⟩ 100 (.ok ⟨302, [("token", "tokW")]⟩)
      (.exn "unused")).state.token_expiry = some (100 + 45 * 60) ∧
    (refresh_token ⟨none, none⟩ 100 (.ok ⟨401, []⟩)
      (.ok ⟨200, some "tokJ"⟩)).state.token_expiry = some (100 + 45 * 60) :=
  ⟨refresh_sets_expiry_to_now_plus_45min.1 ⟨none, none⟩ 100 ⟨302, [("token", "tokW")]⟩
      (.exn "unused") rfl,
   refresh_sets_expiry_to_now_plus_45min.2.1 ⟨none, none⟩ 100 ⟨401, []⟩
      ⟨200, some "tokJ"⟩ rfl rfl rfl⟩

set_option maxRecDepth 100000 in
/-- C6 (counterexample): the fallback SQL text is built by interpolating the
account id into the statement, so the statement text varies with the account
id and an injection-shaped account id is embedded verbatim — the query is
not parameterized. -/
theorem fallback_sql_not_parameterized :
    fallback_sql "ACCT-A" ≠ fallback_sql "ACCT-B" ∧
    pyIn "1\x27 OR \x271\x27=\x271" (fallback_sql "1\x27 OR \x271\x27=\x271") = true :=
  ⟨by decide, by decide⟩

/-- C6 (amended): the fallback path issues a read-only SELECT that filters
by from-account or to-account, orders by timestamp descending and is bounded
to 50 rows, but the account id is spliced into the query text by string
interpolation rather than bound as a query parameter. -/
theorem fallback_sql_query_shape (aid : String) :
    pyStartsWith (fallback_sql aid) "SELECT " = true ∧
    pyIn ("WHERE from_acct=\x27" ++ aid ++ "\x27 OR to_acct=\x27" ++ aid ++ "\x27")
      (fallback_sql aid) = true ∧
    pyIn "ORDER BY timestamp DESC LIMIT 50;" (fallback_sql aid) = true := by
  refine ⟨?_, ?_, ?_⟩
  · unfold pyStartsWith fallback_sql
    simp only [data_append]
    rfl
  · unfold pyIn fallback_sql
    apply decide_eq_true
    refine ⟨("SELECT transaction_id, from_acct, to_acct, amount, to_char(timestamp, \x27YYYY-MM-DD\"T\"HH24:MI:SS\x27) AS ts FROM transactions " : String).data,
      (" ORDER BY timestamp DESC LIMIT 50;" : String).data, ?_⟩
    simp only [data_append, List.append_assoc]
    rfl
  · unfold pyIn fallback_sql
    apply decide_eq_true
    refine ⟨("SELECT transaction_id, from_acct, to_acct, amount, to_char(timestamp, \x27YYYY-MM-DD\"T\"HH24:MI:SS\x27) AS ts FROM transactions WHERE from_acct=\x27" : String).data
        ++ aid.data ++ ("\x27 OR to_acct=\x27" : String).data ++ aid.data
        ++ ("\x27 " : String).data,
      ([] : List Char), ?_⟩
    simp only [data_append, List.append_assoc, List.append_nil]
    rfl

theorem fallback_sql_query_shape_witness :
    pyStartsWith (fallback_sql "9999") "SELECT " = true ∧
    pyIn ("WHERE from_acct=\x279999\x27 OR to_acct=\x279999\x27")
      (fallback_sql "9999") = true ∧
    pyIn "ORDER BY timestamp DESC LIMIT 50;" (fallback_sql "9999") = true :=
  ⟨(fallback_sql_query_shape "9999").1,
   ((fallback_sql_query_shape "9999").2.1).trans (by rfl),
   (fallback_sql_query_shape "9999").2.2⟩

theorem parseTransactionLine_status (line : String) (t : Transaction)
    (h : parseTransactionLine line = some t) : t.status = "COMPLETED" := by
  unfold parseTransactionLine at h
  split at h
  · split at h
    · cases h
      rfl
    · exact Option.noConfusion h
  · exact Option.noConfusion h

/-- C8: with a zero exit status, the fallback returns (never raises) the
record built from the line-by-line parse of stdout: the transaction list is
the filterMap of the per-line parser over the stripped non-blank lines,
every parsed record has status COMPLETED, the returned total count is the
length of the returned list, and a line yields a record exactly when it has
at least five comma-separated fields and its fourth field is an integer. -/
theorem via_db_parses_line_by_line (account_id : String) (proc : ProcResult)
    (hrc : proc.returncode = 0) :
    get_transactions_via_db account_id proc =
      .ok ⟨account_id, (db_lines proc.stdout).filterMap parseTransactionLine,
        ((db_lines proc.stdout).filterMap parseTransactionLine).length⟩ ∧
    (∀ t ∈ (db_lines proc.stdout).filterMap parseTransactionLine,
      t.status = "COMPLETED") ∧
    (∀ line, (parseTransactionLine line).isSome ↔
      (5 ≤ (pySplitComma line).length ∧
        (pyIntOfString ((pySplitComma line).getD 3 "")).isSome)) := by
  refine ⟨?_, ?_, ?_⟩
  · simp [get_transactions_via_db, hrc]
  · intro t ht
    rw [List.mem_filterMap] at ht
    obtain ⟨line, -, hp⟩ := ht
    exact parseTransactionLine_status line t hp
  · intro line
    unfold parseTransactionLine
    rcases hs : pySplitComma line with - | ⟨p0, - | ⟨p1, - | ⟨p2, - | ⟨p3, - | ⟨p4, rest⟩⟩⟩⟩⟩ <;>
        simp [List.getD]
    cases hint : pyIntOfString p3 <;> simp [hint]

theorem via_db_parses_line_by_line_witness :
    get_transactions_via_db "acct-1"
      ⟨0, "t1,alice,bob,100,2024-01-01T00:00:00\n\nmalformed\na,b,c,notanint,t\r\nt2,c,d,-250,ts2,extra\n  \n", ""⟩ =
      .ok ⟨"acct-1",
        [⟨"t1", "alice", "bob", 100, "2024-01-01T00:00:00", "COMPLETED"⟩,
         ⟨"t2", "c", "d", -250, "ts2", "COMPLETED"⟩], 2⟩ :=
  ((via_db_parses_line_by_line "acct-1"
      ⟨0, "t1,alice,bob,100,2024-01-01T00:00:00\n\nmalformed\na,b,c,notanint,t\r\nt2,c,d,-250,ts2,extra\n  \n", ""⟩
      rfl).1).trans (by rfl)

/-- C9: one `_refresh_token` call issues at most two login requests; it
issues exactly one when the form attempt answers 302 with a usable `token`
cookie, in which case the cached token comes from that cookie; in every
other completed-form case it issues a second JSON login request, and on a
200 JSON response the cached token is taken from the `token` JSON field. -/
theorem refresh_two_phase_login :
    (∀ st now formResp jsonResp,
      (refresh_token st now formResp jsonResp).login_requests ≤ 2) ∧
    (∀ st now (r : FormLoginResponse) jsonResp,
      ((r.status_code == 302) && tokenTruthy (cookieLookup r.cookies "token")) = true →
      (refresh_token st now (.ok r) jsonResp).login_requests = 1 ∧
      (refresh_token st now (.ok r) jsonResp).state.token =
        cookieLookup r.cookies "token") ∧
    (∀ st now (r : FormLoginResponse) jsonResp,
      ((r.status_code == 302) && tokenTruthy (cookieLookup r.cookies "token")) = false →
      (refresh_token st now (.ok r) jsonResp).login_requests = 2) ∧
    (∀ st now (r : FormLoginResponse) (r2 : JsonLoginResponse),
      ((r.status_code == 302) && tokenTruthy (cookieLookup r.cookies "token")) = false →
      r2.status_code = 200 →
      (refresh_token st now (.ok r) (.ok r2)).state.token = r2.token_field) := by
  refine ⟨?_, ?_, ?_, ?_⟩
  · intro st now f j
    cases f with
    | exn e => simp [refresh_token]
    | ok r =>
        cases j with
        | exn e =>
            simp only [refresh_token]
            split_ifs <;> simp
        | ok r2 =>
            simp only [refresh_token]
            split_ifs <;> simp
  · intro st now r j hc
    constructor <;> simp [refresh_token, hc]
  · intro st now r j hc
    cases j with
    | exn e => simp [refresh_token, hc]
    | ok r2 =>
        simp only [refresh_token, hc, Bool.false_eq_true, if_false]
        split_ifs <;> simp
  · intro st now r r2 hc h200
    simp only [refresh_token, hc, Bool.false_eq_true, if_false, h200,
      beq_self_eq_true, if_true]
    split_ifs <;> simp

theorem refresh_two_phase_login_witness :
    (refresh_token ⟨none, none⟩ 0 (.ok ⟨302, [("token", "t1")]⟩)
      (.exn "unused")).login_requests = 1 ∧
    (refresh_token ⟨none, none⟩ 0 (.ok ⟨302, [("token", "t1")]⟩)
      (.exn "unused")).state.token = some "t1" ∧
    (refresh_token ⟨none, none⟩ 0 (.ok ⟨401, []⟩)
      (.ok ⟨200, some "t2"⟩)).login_requests = 2 ∧
    (refresh_token ⟨none, none⟩ 0 (.ok ⟨401, []⟩)
      (.ok ⟨200, some "t2"⟩)).state.token = some "t2" :=
  ⟨(refresh_two_phase_login.2.1 ⟨none, none⟩ 0 ⟨302, [("token", "t1")]⟩
      (.exn "unused") rfl).1,
   ((refresh_two_phase_login.2.1 ⟨none, none⟩ 0 ⟨302, [("token", "t1")]⟩
      (.exn "unused") rfl).2).trans (by rfl),
   refresh_two_phase_login.2.2.1 ⟨none, none⟩ 0 ⟨401, []⟩ (.ok ⟨200, some "t2"⟩) rfl,
   refresh_two_phase_login.2.2.2 ⟨none, none⟩ 0 ⟨401, []⟩ ⟨200, some "t2"⟩ rfl rfl⟩

/-- C10: whenever a 2xx response carries a content type not containing
`application/json`, `_make_request` returns the dictionary with the single
key `response` holding the raw body text, and client operations such as
`get_user_details` and `get_transactions` pass this alternative shape
through to their callers unchanged. -/
theorem make_request_nonjson_raw_body (r : HttpResponse) (uid : String)
    (tok : Option String) (account_id : String) (proc : ProcResult)
    (h2 : is2xx r.status_code = true)
    (hct : pyIn "application/json" r.content_type = false) :
    make_request (.resp r) = .ok (Json.obj [("response", Json.str r.text)]) ∧
    (get_user_details uid tok (.resp r)).2 =
      .ok (Json.obj [("response", Json.str r.text)]) ∧
    (get_transactions account_id (.resp r) proc).result =
      .ok (.fromApi (Json.obj [("response", Json.str r.text)])) := by
  have hm : make_request (.resp r) = .ok (Json.obj [("response", Json.str r.text)]) := by
    simp [make_request, h2, hct]
  exact ⟨hm, hm, by simp [get_transactions, hm]⟩

theorem make_request_nonjson_raw_body_witness :
    make_request (.resp ⟨200, "text/html", "hello", .error "not json"⟩) =
      .ok (Json.obj [("response", Json.str "hello")]) ∧
    (get_transactions "a1" (.resp ⟨200, "text/html", "hello", .error "not json"⟩)
      ⟨0, "", ""⟩).result = .ok (.fromApi (Json.obj [("response", Json.str "hello")])) :=
  ⟨(make_request_nonjson_raw_body ⟨200, "text/html", "hello", .error "not json"⟩
      "u" none "a1" ⟨0, "", ""⟩ rfl rfl).1,
   (make_request_nonjson_raw_body ⟨200, "text/html", "hello", .error "not json"⟩
      "u" none "a1" ⟨0, "", ""⟩ rfl rfl).2.2⟩

theorem classifyError_auth_msg (e : String) :
    classifyError ("Authentication failed: " ++ e) = some .authenticationFailed := by
  unfold classifyError pyStartsWith
  rw [data_append]
  rfl

theorem classifyError_request_msg (e : String) :
    classifyError ("Request failed: " ++ e) = some .requestFailed := by
  unfold classifyError pyStartsWith
  rw [data_append]
  rfl

theorem classifyError_db_msg (e : String) :
    classifyError ("Database query failed: " ++ e) = some .fallbackQueryFailed := by
  unfold classifyError pyStartsWith
  rw [data_append]
  rfl

theorem refresh_error_classified (st : AuthState) (now : Time)
    (f : HttpOutcome FormLoginResponse) (j : HttpOutcome JsonLoginResponse)
    (m : String) (h : (refresh_token st now f j).error = some m) :
    classifyError m = some .authenticationFailed := by
  cases f with
  | exn e =>
      simp [refresh_token] at h
      subst h
      exact classifyError_auth_msg e
  | ok r =>
      by_cases hc : ((r.status_code == 302) && tokenTruthy (cookieLookup r.cookies "token")) = true
      · simp [refresh_token, hc] at h
      · rw [Bool.not_eq_true] at hc
        cases j with
        | exn e =>
            simp [refresh_token, hc] at h
            subst h
            exact classifyError_auth_msg e
        | ok r2 =>
            by_cases h200 : (r2.status_code == 200) = true
            · by_cases htok : tokenTruthy r2.token_field = true
              · simp [refresh_token, hc, h200, htok] at h
              · rw [Bool.not_eq_true] at htok
                simp [refresh_token, hc, h200, htok] at h
                subst h
                decide
            · rw [Bool.not_eq_true] at h200
              simp [refresh_token, hc, h200] at h

theorem via_db_error_classified (account_id : String) (proc : ProcResult)
    (m : String) (h : get_transactions_via_db account_id proc = .error m) :
    classifyError m = some .fallbackQueryFailed := by
  unfold get_transactions_via_db at h
  split at h
  · exact Except.noConfusion h
  · simp at h
    subst h
    exact classifyError_db_msg proc.stderr

/-- C5: every failure any modeled operation surfaces carries one of four
distinct message shapes, classifiable from the error value alone:
network/timeout failures of `_make_request` classify as request failures,
non-2xx responses as backend HTTP errors whose message carries the status
and body, every error raised by `_refresh_token` or `get_valid_token` as an
authentication failure, and every error of the database fallback (and hence
of `get_transactions`) as a fallback-query failure.  `classifyError` is a
total function on messages, so the four kinds are mutually exclusive. -/
theorem error_values_classify_into_four_kinds :
    (∀ e, make_request (.netErr e) = .error ("Request failed: " ++ e) ∧
      classifyError ("Request failed: " ++ e) = some .requestFailed) ∧
    (∀ r : HttpResponse, is2xx r.status_code = false →
      make_request (.resp r) =
        .error ("Bank API error (" ++ toString r.status_code ++ "): " ++ r.text) ∧
      classifyError ("Bank API error (" ++ toString r.status_code ++ "): " ++ r.text) =
        some .backendHTTPError ∧
      pyIn (toString r.status_code)
        ("Bank API error (" ++ toString r.status_code ++ "): " ++ r.text) = true ∧
      pyIn r.text
        ("Bank API error (" ++ toString r.status_code ++ "): " ++ r.text) = true) ∧
    (∀ st now f j m, (refresh_token st now f j).error = some m →
      classifyError m = some .authenticationFailed) ∧
    (∀ st now f j m, (get_valid_token st now f j).result = .error m →
      classifyError m = some .authenticationFailed) ∧
    (∀ account_id proc m, get_transactions_via_db account_id proc = .error m →
      classifyError m = some .fallbackQueryFailed) ∧
    (∀ account_id primary proc m,
      (get_transactions account_id primary proc).result = .error m →
      classifyError m = some .fallbackQueryFailed) := by
  refine ⟨?_, ?_, refresh_error_classified, ?_, via_db_error_classified, ?_⟩
  · intro e
    refine ⟨rfl, classifyError_request_msg e⟩
  · intro r hr
    refine ⟨?_, ?_, ?_, ?_⟩
    · simp [make_request, hr]
    · unfold classifyError pyStartsWith
      rw [data_append, data_append, data_append]
      rfl
    · unfold pyIn
      apply decide_eq_true
      refine ⟨("Bank API error (" : String).data,
        ("): " : String).data ++ r.text.data, ?_⟩
      simp only [data_append, List.append_assoc]
    · unfold pyIn
      apply decide_eq_true
      refine ⟨("Bank API error (" : String).data ++ (toString r.status_code).data
          ++ ("): " : String).data, ([] : List Char), ?_⟩
      simp only [data_append, List.append_assoc, List.append_nil]
  · intro st now f j m h
    unfold get_valid_token at h
    split at h
    · exact absurd h (by simp)
    · cases he : (refresh_token st now f j).error with
      | none => simp [he] at h
      | some e =>
          simp [he] at h
          subst h
          exact refresh_error_classified st now f j e he
  · intro account_id primary proc m h
    unfold get_transactions at h
    cases hm : make_request primary with
    | ok v => rw [hm] at h; exact absurd h (by simp)
    | error e =>
        rw [hm] at h
        cases hdb : get_transactions_via_db account_id proc with
        | ok v => rw [hdb] at h; exact absurd h (by simp)
        | error m2 =>
            rw [hdb] at h
            simp at h
            subst h
            exact via_db_error_classified account_id proc m2 hdb

theorem error_values_classify_witness :
    classifyError ("Request failed: " ++ "boom") = some .requestFailed ∧
    classifyError ("Bank API error (" ++ toString (503 : Nat) ++ "): " ++ "down") =
      some .backendHTTPError ∧
    classifyError ("Authentication failed: " ++ "x") = some .authenticationFailed ∧
    classifyError ("Database query failed: " ++ "no pod") = some .fallbackQueryFailed :=
  ⟨(error_values_classify_into_four_kinds.1 "boom").2,
   (error_values_classify_into_four_kinds.2.1 ⟨503, "", "down", .error "z"⟩ rfl).2.1,
   error_values_classify_into_four_kinds.2.2.1 ⟨none, none⟩ 0 (.exn "x") (.exn "y") _ rfl,
   error_values_classify_into_four_kinds.2.2.2.2.1 "a" ⟨1, "", "no pod"⟩ _ rfl⟩

end BankApi
